import Mathlib

/-!
Shallow embedding of the gpu-alloc GPU memory sub-allocator
(crates gpu-alloc, gpu-alloc-types, and the older galloc variant).

u64 values are modelled as `Nat` with explicit `% 2 ^ 64` bounds where
overflow matters; fallible operations return `Option` (with `none`
standing for a checked-arithmetic failure or a panic) or an explicit
result type. Definitions are translated from the Rust sources under
`src/`; the few pieces of the repository that are not present under
`src/` (heap.rs, slab.rs, usage.rs, the flag constants of the types
crate, config.rs) are modelled from the specification and marked so in
their doc comments.
-/

namespace GpuAlloc

/-- `2 ^ 64`, the number of `u64` values. -/
def u64Limit : Nat := 2 ^ 64

/-- Bitwise complement of a `u64` value `x < 2 ^ 64` (Rust `!x` on `u64`). -/
def not64 (x : Nat) : Nat := u64Limit - 1 - x

/-- The value computed by `align_up` when it does not overflow:
`(value + align_mask) & !align_mask` (gpu-alloc/src/lib.rs lines 119-121). -/
def alignUpVal (value alignMask : Nat) : Nat :=
  Nat.land (value + alignMask) (not64 alignMask)

/-- `align_up` from gpu-alloc/src/lib.rs lines 119-121:
`Some(value.checked_add(align_mask)? & !align_mask)`; `none` models the
`checked_add` overflow. -/
def alignUp (value alignMask : Nat) : Option Nat :=
  if value + alignMask < u64Limit then some (alignUpVal value alignMask) else none

/-- `align_down` from gpu-alloc/src/lib.rs lines 125-127: `value & !align_mask`. -/
def alignDown (value alignMask : Nat) : Nat :=
  Nat.land value (not64 alignMask)

/-- Rust `u64::checked_add`. -/
def checkedAdd (a b : Nat) : Option Nat :=
  if a + b < u64Limit then some (a + b) else none

/-- The allocator error taxonomy (gpu-alloc/src/error.rs). -/
inductive AllocationError
  | outOfDeviceMemory
  | outOfHostMemory
  | tooManyObjects
  | noCompatibleMemoryTypes
  deriving DecidableEq

/-- Result of a fallible allocator operation (Rust `Result<_, AllocationError>`). -/
inductive AllocResult (α : Type)
  | err (e : AllocationError)
  | ok (v : α)
  deriving DecidableEq

/-- Modelled from the spec: per-heap accounting state; `heap.rs` is not
under `src/`. Spec section 3: state `total_size, used, cumulative_allocated,
cumulative_deallocated` with `budget() = total_size - used`. -/
structure Heap where
  size : Nat
  used : Nat
  allocated : Nat
  deallocated : Nat
  deriving DecidableEq

/-- Modelled from the spec: `budget() = total_size - used` (spec section 3). -/
def Heap.budget (h : Heap) : Nat := h.size - h.used

/-- Modelled from the spec: `alloc(size)` updates `used` and
`cumulative_allocated` (spec section 4.1). -/
def Heap.alloc (h : Heap) (sz : Nat) : Heap :=
  { h with used := h.used + sz, allocated := h.allocated + sz }

/-- Modelled from the spec: `dealloc(size)` updates `used` and
`cumulative_deallocated` (spec section 4.1). -/
def Heap.dealloc (h : Heap) (sz : Nat) : Heap :=
  { h with used := h.used - sz, deallocated := h.deallocated + sz }

/-- The Dedicated-strategy budget gate as written in the source
(gpu-alloc/src/allocator.rs line 264 and galloc/src/galloc.rs line 160):
`if !heap.budget() >= request.size { continue; }` where `!` is Rust
bitwise NOT on `u64`. The allocator proceeds to `allocate_memory`
exactly when this returns `true`, i.e. when `!budget < size`. -/
def dedicatedBudgetProceeds (budget reqSize : Nat) : Bool :=
  ! decide (not64 budget ≥ reqSize)

/-- The budget gate as the claim states it: proceed iff
`heap.budget() >= request.size` (for comparison with
`dedicatedBudgetProceeds`). -/
def specBudgetAdmits (budget reqSize : Nat) : Bool :=
  decide (budget ≥ reqSize)

/-- `Config` of the allocator. The first three fields are in the old
variant's config (src/src/config.rs); the remaining three are modelled
from the spec (section 6.2 lists all six `u64` fields; gpu-alloc's
config.rs is not under `src/`). -/
structure Config where
  dedicatedTreshold : Nat
  preferredDedicatedTreshold : Nat
  transientDedicatedTreshold : Nat
  linearChunk : Nat
  minimalBuddySize : Nat
  initialBuddyDedicatedSize : Nat

/-- A memory type: property flags and heap index (gpu-alloc-types). -/
structure MemoryType where
  props : Nat
  heap : Nat
  deriving DecidableEq

/-- `DeviceProperties` (src/types/src/device.rs lines 28-43, plus the
`buffer_device_address` field used by gpu-alloc/src/allocator.rs). -/
structure DeviceProperties where
  memoryTypes : List MemoryType
  memoryHeaps : List Nat
  maxMemoryAllocationCount : Nat
  maxMemoryAllocationSize : Nat
  nonCoherentAtomSize : Nat
  bufferDeviceAddress : Bool

/-- The bookkeeping fields of `GpuAllocator` that the embedded state
transitions touch, plus the construction-time thresholds
(gpu-alloc/src/allocator.rs lines 27-44). -/
structure AllocatorState where
  dedicatedTreshold : Nat
  preferredDedicatedTreshold : Nat
  transientDedicatedTreshold : Nat
  maxMemoryAllocationSize : Nat
  allocationsRemains : Nat
  nonCoherentAtomMask : Nat
  bufferDeviceAddress : Bool
  memoryHeaps : List Heap

/-- `GpuAllocator::new` (gpu-alloc/src/allocator.rs lines 95-133; the
galloc variant at galloc/src/galloc.rs lines 54-90 computes the same
thresholds): `dedicated = config.dedicated.max(max_size)`,
`preferred = config.preferred.min(config.dedicated).max(max_size)`,
`transient = config.transient.max(config.dedicated).max(max_size)`. -/
def gpuAllocatorNew (config : Config) (props : DeviceProperties) : AllocatorState where
  dedicatedTreshold := max config.dedicatedTreshold props.maxMemoryAllocationSize
  preferredDedicatedTreshold :=
    max (min config.preferredDedicatedTreshold config.dedicatedTreshold)
      props.maxMemoryAllocationSize
  transientDedicatedTreshold :=
    max (max config.transientDedicatedTreshold config.dedicatedTreshold)
      props.maxMemoryAllocationSize
  maxMemoryAllocationSize := props.maxMemoryAllocationSize
  allocationsRemains := props.maxMemoryAllocationCount
  nonCoherentAtomMask := props.nonCoherentAtomSize - 1
  bufferDeviceAddress := props.bufferDeviceAddress
  memoryHeaps := props.memoryHeaps.map fun sz => ⟨sz, 0, 0, 0⟩

/-- Replace the heap at index `i` by `f` of it (in-place mutation of
`self.memory_heaps[heap]` in the source). -/
def updateHeap : List Heap → Nat → (Heap → Heap) → List Heap
  | [], _, _ => []
  | h :: t, 0, f => f h :: t
  | h :: t, i + 1, f => h :: updateHeap t i f

/-- Dedicated-success bookkeeping, gpu-alloc/src/allocator.rs lines 277-278:
`self.allocations_remains -= 1; heap.alloc(request.size)`. -/
def commitDedicatedAlloc (st : AllocatorState) (heapIndex sz : Nat) : AllocatorState :=
  { st with
    allocationsRemains := st.allocationsRemains - 1
    memoryHeaps := updateHeap st.memoryHeaps heapIndex (Heap.alloc · sz) }

/-- Dedicated-dealloc bookkeeping, gpu-alloc/src/allocator.rs lines 408-412:
`self.allocations_remains += 1; heap.dealloc(block.size)`. -/
def commitDedicatedDealloc (st : AllocatorState) (heapIndex sz : Nat) : AllocatorState :=
  { st with
    allocationsRemains := st.allocationsRemains + 1
    memoryHeaps := updateHeap st.memoryHeaps heapIndex (Heap.dealloc · sz) }

/-- The linear and buddy sub-allocator calls receive `&mut` references
only to `self.allocations_remains` and the chosen heap
(gpu-alloc/src/allocator.rs lines 314-321, 361-368, 423-434, 445-457);
this transition over-approximates any update they can perform on the
`GpuAllocator` bookkeeping fields. -/
def commitSubAllocatorRound (st : AllocatorState) (remainsAfter : Nat)
    (heapsAfter : List Heap) : AllocatorState :=
  { st with allocationsRemains := remainsAfter, memoryHeaps := heapsAfter }

/-- The three strategy thresholds of an allocator state. -/
def tresholdTriple (st : AllocatorState) : Nat × Nat × Nat :=
  (st.preferredDedicatedTreshold, st.dedicatedTreshold, st.transientDedicatedTreshold)

/-- A linear-allocator chunk (gpu-alloc/src/linear.rs lines 23-29):
`offset` is the bump cursor, `allocated` the live-block count, `ptr` the
optional base mapping address of the chunk (a host address modelled as
`Nat`), `memoryId` stands for the opaque memory handle. -/
structure LinChunk where
  memoryId : Nat
  offset : Nat
  allocated : Nat
  ptr : Option Nat
  deriving DecidableEq

/-- `LinearBlock` (gpu-alloc/src/linear.rs lines 14-21). -/
structure LinearBlock where
  memoryId : Nat
  ptr : Option Nat
  offset : Nat
  size : Nat
  chunk : Nat
  deriving DecidableEq

/-- `fits` from gpu-alloc/src/linear.rs lines 390-394:
`align_up(chunk_allocated, align_mask).and_then(|a| a.checked_add(size))
.map_or(false, |size| size < chunk_size)`. Note that the source compares
with strict `<` and that its callers pass the chunk's live-allocation
count `ready.allocated` as the second argument. -/
def fits (chunkSize chunkAllocated size alignMask : Nat) : Bool :=
  match (alignUp chunkAllocated alignMask).bind fun aligned => checkedAdd aligned size with
  | some total => decide (total < chunkSize)
  | none => false

/-- The guard on a ready chunk as called in gpu-alloc/src/linear.rs
lines 116, 137 and 235: `fits(self.chunk_size, ready.allocated, size,
align_mask)`. -/
def readyChunkFits (chunkSize : Nat) (ready : LinChunk) (size alignMask : Nat) : Bool :=
  fits chunkSize ready.allocated size alignMask

/-- The fits test as the claim states it: `align_up(cursor, align_mask)
+ size <= chunk_size`, with the aligned end equal to `chunk_size`
accepted (for comparison with `readyChunkFits`). -/
def specFits (chunkSize cursor size alignMask : Nat) : Bool :=
  match (alignUp cursor alignMask).bind fun aligned => checkedAdd aligned size with
  | some total => decide (total ≤ chunkSize)
  | none => false

/-- `LinearAllocator::alloc_from_chunk` (gpu-alloc/src/linear.rs lines
357-387): `offset = align_up(chunk.offset, align_mask)` (the `expect`
there is modelled by `none`), `chunk.offset = offset + size`,
`chunk.allocated += 1`, and the emitted block carries
`ptr: chunk.ptr.map(|ptr| ptr.add(size as usize))` and
`chunk: chunks_offset + exhausted`. -/
def allocFromChunk (chunk : LinChunk) (chunksOffset exhausted size alignMask : Nat) :
    Option (LinChunk × LinearBlock) :=
  (alignUp chunk.offset alignMask).map fun offset =>
    ({ chunk with offset := offset + size, allocated := chunk.allocated + 1 },
      { memoryId := chunk.memoryId
        ptr := chunk.ptr.map fun p => p + size
        offset := offset
        size := size
        chunk := chunksOffset + exhausted })

/-- `MemoryBlock::map_memory_internal` on a `Linear` or `Buddy` flavor
with a stored pointer (gpu-alloc/src/block.rs lines 235-240): the
returned host address is the block's stored pointer plus the requested
offset. -/
def mapSubAllocatedPtr (storedPtr : Option Nat) (offset : Nat) : Option Nat :=
  storedPtr.map fun p => p + offset

/-- Whether a ready chunk exists and fits, mirroring the
`Some(ready) if fits(self.chunk_size, ready.allocated, size, align_mask)`
match guards of `LinearAllocator::alloc`. -/
def readyFitsOpt (chunkSize : Nat) (ready : Option LinChunk) (size alignMask : Nat) : Bool :=
  match ready with
  | some r => readyChunkFits chunkSize r size alignMask
  | none => false

/-- How a `LinearAllocator::alloc` call is routed before any device
interaction. -/
inductive LinearAllocStep
  | readyMapped
  | readyUnmapped
  | tooManyObjects
  | freshMapped
  | freshUnmapped
  deriving DecidableEq

/-- The control flow of `LinearAllocator::alloc`
(gpu-alloc/src/linear.rs lines 92-276) up to the first device call.
`align_mask = align_mask | self.atom_mask` (line 111). Host-visible
types first try the unmapped ready chunk when the request lacks
`HOST_ACCESS` (lines 113-134), then the mapped ready chunk (line 137);
when a fresh chunk is needed the mapped stream checks
`*allocations_remains == 0` and returns `TooManyObjects` (lines
155-157) before `device.allocate_memory` (line 159). Non-host-visible
types use the unmapped stream (lines 234-274); the fresh-chunk path
there calls `device.allocate_memory` (line 252) with no quota check and
then runs `*allocations_remains -= 1` (line 253). `freshMapped` and
`freshUnmapped` mean the device call is reached. -/
def linearAllocRoute (hostVisible hasHostAccess : Bool) (chunkSize atomMask : Nat)
    (readyMapped readyUnmapped : Option LinChunk)
    (size alignMask allocationsRemains : Nat) : LinearAllocStep :=
  let am := alignMask ||| atomMask
  if hostVisible then
    if !hasHostAccess && readyFitsOpt chunkSize readyUnmapped size am then
      .readyUnmapped
    else if readyFitsOpt chunkSize readyMapped size am then
      .readyMapped
    else if allocationsRemains = 0 then
      .tooManyObjects
    else
      .freshMapped
  else
    if readyFitsOpt chunkSize readyUnmapped size am then
      .readyUnmapped
    else
      .freshUnmapped

/-- Count of trailing zero bits (auxiliary, structural on the fuel). -/
def ctzAux : Nat → Nat → Nat
  | 0, _ => 0
  | fuel + 1, n => if n % 2 = 0 ∧ n ≠ 0 then ctzAux fuel (n / 2) + 1 else 0

/-- Rust `u64::trailing_zeros`: 64 for zero, otherwise the 2-adic
valuation. -/
def trailingZeros64 (n : Nat) : Nat :=
  if n = 0 then 64 else ctzAux 64 n

/-- Smallest power of two that is `≥ v` (and `1` for `v ≤ 1`),
auxiliary with structural fuel. -/
def nextPow2Aux : Nat → Nat → Nat
  | 0, _ => 1
  | fuel + 1, v => if v ≤ 1 then 1 else 2 * nextPow2Aux fuel ((v + 1) / 2)

/-- Rust `u64::next_power_of_two` on in-range inputs. -/
def nextPow2 (v : Nat) : Nat := nextPow2Aux 64 v

/-- Rust `u64::checked_next_power_of_two`: `None` when the next power of
two does not fit `u64`, i.e. when `v > 2 ^ 63`. -/
def checkedNextPow2 (v : Nat) : Option Nat :=
  if v ≤ 2 ^ 63 then some (nextPow2 v) else none

/-- Rust `u32` wrapping subtraction (release-mode semantics of
`a - b`), for `a, b < 2 ^ 32`. -/
def wrapSub32 (a b : Nat) : Nat := (a + 2 ^ 32 - b) % 2 ^ 32

/-- The rounded size and size-class index computed by
`BuddyAllocator::alloc`. -/
structure BuddySizing where
  roundedSize : Nat
  sizeIndex : Nat
  deriving DecidableEq

/-- The size rounding and size-class indexing prefix of
`BuddyAllocator::alloc` (gpu-alloc/src/buddy.rs lines 323-331):
`align_mask = align_mask | self.atom_mask`;
`size = align_up(size, align_mask).and_then(next_power_of_two checked)
.ok_or(OutOfDeviceMemory)?`;
`size_index = size.trailing_zeros() - minimal_size.trailing_zeros()`
(`u32` arithmetic); `usize::try_from(size_index)
.map_err(|_| OutOfDeviceMemory)?` — the conversion fails exactly when
the index exceeds the platform's `usize::MAX`, here the parameter
`usizeMax`. -/
def buddyAllocSizing (minimalSize storedAtomMask usizeMax size alignMask : Nat) :
    AllocResult BuddySizing :=
  match (alignUp size (alignMask ||| storedAtomMask)).bind checkedNextPow2 with
  | none => .err .outOfDeviceMemory
  | some sz =>
      if wrapSub32 (trailingZeros64 sz) (trailingZeros64 minimalSize) ≤ usizeMax then
        .ok ⟨sz, wrapSub32 (trailingZeros64 sz) (trailingZeros64 minimalSize)⟩
      else .err .outOfDeviceMemory

/-- The initial length of the size-class vector,
`BuddyAllocator::new` (gpu-alloc/src/buddy.rs lines 296-303):
`initial_dedicated_size.trailing_zeros()
.saturating_sub(minimal_size.trailing_zeros())`. -/
def initialSizesLen (minimalSize initialDedicatedSize : Nat) : Nat :=
  trailingZeros64 initialDedicatedSize - trailingZeros64 minimalSize

/-- The size-class vector extension of `BuddyAllocator::alloc`
(gpu-alloc/src/buddy.rs lines 333-335):
`if self.sizes.len() <= size_index { self.sizes.push(Size::new()); }` —
at most one class is pushed. Returns the new vector length. -/
def extendSizesLen (sizesLen sizeIndex : Nat) : Nat :=
  if sizesLen ≤ sizeIndex then sizesLen + 1 else sizesLen

/-- Modelled from the spec: `Slab`, the stable-index arena used by the
buddy internals (`slab.rs` is not under `src/`; spec section 2). Only
the interface the buddy code relies on is modelled: `insert` stores an
entry under a fresh stable index (here: appended at the end, the index
any arena returns when no slot has been vacated), `len`, indexed read
and write. -/
structure Slab (α : Type) where
  entries : List α
  deriving DecidableEq

/-- Number of slots currently in the slab. -/
def Slab.len {α : Type} (s : Slab α) : Nat := s.entries.length

/-- Store `a` under a fresh index and return it. -/
def Slab.insert {α : Type} (s : Slab α) (a : α) : Slab α × Nat :=
  (⟨s.entries ++ [a]⟩, s.entries.length)

/-- Read the entry at `i`. -/
def Slab.read {α : Type} (s : Slab α) (i : Nat) : Option α := s.entries.get? i

/-- Overwrite the entry at `i`. -/
def Slab.write {α : Type} (s : Slab α) (i : Nat) (a : α) : Slab α :=
  ⟨s.entries.set i a⟩

/-- Buddy side tag (gpu-alloc/src/buddy.rs lines 50-63). -/
inductive Side
  | left
  | right
  deriving DecidableEq

/-- `Side::bit`: 0 for `Left`, 1 for `Right`. -/
def Side.bit : Side → Nat
  | .left => 0
  | .right => 1

/-- `PairState` (gpu-alloc/src/buddy.rs lines 24-32). -/
inductive PairState
  | exhausted
  | ready (r : Side) (next prev : Nat)
  deriving DecidableEq

/-- `PairEntry` (gpu-alloc/src/buddy.rs lines 65-70). -/
structure PairEntry where
  state : PairState
  chunk : Nat
  offset : Nat
  parent : Option Nat
  deriving DecidableEq

/-- `Size`, one buddy size class (gpu-alloc/src/buddy.rs lines 78-81). -/
structure SizeClass where
  ready : Nat
  pairs : Slab PairEntry
  deriving DecidableEq

/-- `SizeBlockEntry` (gpu-alloc/src/buddy.rs lines 72-76). -/
structure SizeBlockEntry where
  chunk : Nat
  offset : Nat
  index : Nat
  deriving DecidableEq

/-- `PairState::replace_next` applied to the entry at `i`
(gpu-alloc/src/buddy.rs lines 35-40); on an `Exhausted` entry the
source is `unreachable_unchecked`, modelled as no-op. -/
def replaceNextAt (p : Slab PairEntry) (i newNext : Nat) : Slab PairEntry :=
  match p.read i with
  | some e =>
      match e.state with
      | .ready r _ prev => p.write i { e with state := .ready r newNext prev }
      | .exhausted => p
  | none => p

/-- `PairState::replace_prev` applied to the entry at `i`
(gpu-alloc/src/buddy.rs lines 42-47); on an `Exhausted` entry the
source is `unreachable_unchecked`, modelled as no-op. -/
def replacePrevAt (p : Slab PairEntry) (i newPrev : Nat) : Slab PairEntry :=
  match p.read i with
  | some e =>
      match e.state with
      | .ready r next _ => p.write i { e with state := .ready r next newPrev }
      | .exhausted => p
  | none => p

/-- `Size::add_pair_and_acquire_left` (gpu-alloc/src/buddy.rs lines
97-142): insert an `Exhausted` pair entry, set `self.ready = index`,
flip the entry to `Ready { ready: Right, next: index, prev: index }`
(the left buddy is handed out), and return
`SizeBlockEntry { chunk, offset, index }` — the raw slab index, with no
`<< 1` packing. -/
def SizeClass.addPairAndAcquireLeft (s : SizeClass) (chunk offset : Nat)
    (parent : Option Nat) : SizeClass × SizeBlockEntry :=
  let inserted := s.pairs.insert ⟨.exhausted, chunk, offset, parent⟩
  let index := inserted.2
  let pairsAfter := inserted.1.write index ⟨.ready .right index index, chunk, offset, parent⟩
  (⟨index, pairsAfter⟩, ⟨chunk, offset, index⟩)

/-- `Size::acquire` (gpu-alloc/src/buddy.rs lines 144-174): `None` when
`self.ready >= self.pairs.len()`; otherwise take the head ready pair,
set it `Exhausted`, unlink it from the ready list, and return
`SizeBlockEntry { chunk, offset: offset + bit * size,
index: (self.ready << 1) | bit }`. The `unreachable_unchecked` on an
`Exhausted` head is modelled as `none`. -/
def SizeClass.acquire (s : SizeClass) (size : Nat) : Option (SizeClass × SizeBlockEntry) :=
  if s.ready ≥ s.pairs.len then none
  else
    match s.pairs.read s.ready with
    | none => none
    | some entry =>
        match entry.state with
        | .exhausted => none
        | .ready r next prev =>
            let pairs1 := s.pairs.write s.ready { entry with state := .exhausted }
            let pairs2 := replaceNextAt pairs1 prev next
            let pairs3 := replacePrevAt pairs2 next prev
            some (⟨s.ready, pairs3⟩,
              ⟨entry.chunk, entry.offset + r.bit * size, (s.ready <<< 1) ||| r.bit⟩)

/-- Modelled from the spec: the `MemoryPropertyFlags` bit constants of
the types crate (its `types.rs` is not under `src/`); distinct
power-of-two bits as in Vulkan. -/
def HOST_VISIBLE : Nat := 2

/-- Modelled from the spec: the `HOST_COHERENT` property bit. -/
def HOST_COHERENT : Nat := 4

/-- `MemoryBlock::coherent` (gpu-alloc/src/block.rs lines 265-267):
`self.props.contains(HOST_COHERENT)`. -/
def coherent (props : Nat) : Bool := decide (props &&& HOST_COHERENT ≠ 0)

/-- A `MappedMemoryRange` passed to `flush_memory_ranges` or
`invalidate_memory_ranges` (src/types/src/device.rs lines 20-24),
without the memory handle. -/
structure MappedRange where
  offset : Nat
  size : Nat
  deriving DecidableEq

/-- The flush ranges that `MemoryBlock::write_bytes` passes to
`device.flush_memory_ranges` (gpu-alloc/src/block.rs lines 141-152):
when the block is not coherent, exactly one range with
`offset = align_down(offset, map_mask)` and
`size = align_up(data.len(), map_mask).unwrap()` (the `unwrap` is
modelled by `none`); when coherent, no call is made. -/
def writeBytesFlushRanges (props mapMask offset dataLen : Nat) : Option (List MappedRange) :=
  if coherent props = false then
    (alignUp dataLen mapMask).map fun sz => [⟨alignDown offset mapMask, sz⟩]
  else some []

/-- The invalidate ranges that `MemoryBlock::read_bytes` passes to
`device.invalidate_memory_ranges` (gpu-alloc/src/block.rs lines
185-196); same computation as the write path. -/
def readBytesInvalidateRanges (props mapMask offset dataLen : Nat) : Option (List MappedRange) :=
  if coherent props = false then
    (alignUp dataLen mapMask).map fun sz => [⟨alignDown offset mapMask, sz⟩]
  else some []

/-- Modelled from the spec: the `UsageFlags` bits (usage.rs is not
under `src/`; spec sections 3 and 4.2); distinct power-of-two bits. -/
def FAST_DEVICE_ACCESS : Nat := 1

/-- Modelled from the spec: the `HOST_ACCESS` usage bit. -/
def HOST_ACCESS : Nat := 2

/-- Modelled from the spec: the `DOWNLOAD` usage bit. -/
def DOWNLOAD : Nat := 4

/-- Modelled from the spec: the `UPLOAD` usage bit. -/
def UPLOAD : Nat := 8

/-- Modelled from the spec: the `TRANSIENT` usage bit. -/
def TRANSIENT : Nat := 16

/-- Modelled from the spec: the `DEVICE_ADDRESS` usage bit. -/
def DEVICE_ADDRESS : Nat := 32

/-- `with_implicit_usage_flags` (gpu-alloc/src/allocator.rs lines
468-476): empty usage becomes `FAST_DEVICE_ACCESS`; `DOWNLOAD` or
`UPLOAD` imply `HOST_ACCESS`. -/
def withImplicitUsageFlags (usage : Nat) : Nat :=
  if usage = 0 then FAST_DEVICE_ACCESS
  else if usage &&& (DOWNLOAD ||| UPLOAD) ≠ 0 then usage ||| HOST_ACCESS
  else usage

/-- Modelled from the spec: which usage bits require a `HOST_VISIBLE`
memory type (spec section 4.2: `HOST_ACCESS`, `UPLOAD` and `DOWNLOAD`
require host visibility; the other bits only affect preference order). -/
def usageRequiresHostVisible (usage : Nat) : Bool :=
  decide (usage &&& (HOST_ACCESS ||| UPLOAD ||| DOWNLOAD) ≠ 0)

/-- Modelled from the spec: `MemoryForUsage::mask(usage)`, the bitset of
memory-type indices acceptable for the usage (usage.rs is not under
`src/`; spec section 4.2). -/
def memoryForUsageMask (memoryTypes : List MemoryType) (usage : Nat) : Nat :=
  memoryTypes.enum.foldl
    (fun acc p =>
      if usageRequiresHostVisible usage && decide (p.2.props &&& HOST_VISIBLE = 0) then acc
      else acc ||| (1 <<< p.1)) 0

/-- Outcome of the `alloc_internal` prechecks that run before the
memory-type loop. -/
inductive PrecheckResult
  | panicked
  | rejected (e : AllocationError)
  | proceeds (usage : Nat)
  deriving DecidableEq

/-- The prechecks of `GpuAllocator::alloc_internal`
(gpu-alloc/src/allocator.rs lines 193-213), in source order: apply the
implicit usage flags; `assert!` that `DEVICE_ADDRESS` is only requested
when `buffer_device_address` holds (a panic otherwise); reject with
`OutOfDeviceMemory` when `request.size > max_memory_allocation_size`;
reject with `NoCompatibleMemoryTypes` when
`memory_for_usage.mask(usage) & request.memory_types == 0`. These
checks precede the memory-type loop, so a rejection here makes no
device call and mutates no allocator field. -/
def allocPrechecks (bufferDeviceAddress : Bool) (maxMemoryAllocationSize : Nat)
    (memoryTypes : List MemoryType) (reqSize usage memoryTypesMask : Nat) : PrecheckResult :=
  if withImplicitUsageFlags usage &&& DEVICE_ADDRESS ≠ 0 ∧ bufferDeviceAddress = false then
    .panicked
  else if maxMemoryAllocationSize < reqSize then
    .rejected .outOfDeviceMemory
  else if memoryForUsageMask memoryTypes (withImplicitUsageFlags usage) &&& memoryTypesMask
      = 0 then
    .rejected .noCompatibleMemoryTypes
  else .proceeds (withImplicitUsageFlags usage)

/-- C1: the claim says the Dedicated strategy calls
`device.allocate_memory` iff `heap.budget() >= request.size` and skips
the memory type iff `heap.budget() < request.size`. The source gate
(allocator.rs line 264, galloc.rs line 160) is
`if !heap.budget() >= request.size { continue; }` with `!` the bitwise
NOT on `u64`: for a heap of size 1024 with 924 used (budget 100) and a
request of size 50 the code skips the memory type even though the
budget admits the request. -/
theorem c1_dedicated_budget_bitnot_eval :
    Heap.budget ⟨1024, 924, 924, 0⟩ = 100
      ∧ dedicatedBudgetProceeds (Heap.budget ⟨1024, 924, 924, 0⟩) 50 = false
      ∧ specBudgetAdmits 100 50 = true := by
  decide

/-- C2: the claim says a block from a host-mapped linear chunk stores
`base + offset` and `map` then returns `base + offset + off`. Evaluating
`alloc_from_chunk` on a chunk with base pointer 4096 and cursor 0 for a
64-byte request: the emitted block has offset 0 but stored pointer
4096 + 64 = 4160 (linear.rs line 382 adds `size`, not `offset`), and a
subsequent `map` at off 8 returns 4168 instead of 4096 + 0 + 8. -/
theorem c2_linear_stored_ptr_eval :
    ((allocFromChunk ⟨7, 0, 0, some 4096⟩ 0 0 64 0).map fun r => (r.2.ptr, r.2.offset))
        = some (some 4160, 0)
      ∧ mapSubAllocatedPtr (some 4160) 8 = some 4168
      ∧ (4160 : Nat) ≠ 4096 + 0
      ∧ (4168 : Nat) ≠ 4096 + 0 + 8 := by
  decide

/-- C3: the claim says the size-class vector is extended so that class
`s` exists before it is indexed and `BuddyAllocator::alloc` never
panics on the size-class index. With `minimal_size = 1024` and
`initial_dedicated_size = 1024` the vector starts empty; a request of
size 4096 computes size class 2, the extension step (an `if`, pushing
at most one class) leaves length 1, and the subsequent
`self.sizes[2]` access is out of bounds. -/
theorem c3_size_class_extension_eval :
    buddyAllocSizing 1024 1023 (2 ^ 64 - 1) 4096 0 = .ok ⟨4096, 2⟩
      ∧ initialSizesLen 1024 1024 = 0
      ∧ extendSizesLen 0 2 = 1
      ∧ ¬ 2 < extendSizesLen 0 2 := by
  decide

/-- C4: the claim says every emitted buddy block carries node index
`(pair_index << 1) | side_bit`. `Size::add_pair_and_acquire_left` on a
slab that already holds one pair entry inserts the new pair at slab
index 1 and returns node index 1 — not `(1 << 1) | 0 = 2` — while
`Size::acquire` emits `(0 << 1) | 1 = 1` for the right buddy of pair 0,
so two distinct `(pair_index, side)` blocks decode to the same node
index and release cannot identify exactly one of them. -/
theorem c4_node_index_packing_eval :
    ((⟨0, ⟨[⟨.exhausted, 0, 0, none⟩]⟩⟩ : SizeClass).addPairAndAcquireLeft 3 0 none).2
        = ⟨3, 0, 1⟩
      ∧ (1 : Nat) ≠ (1 <<< 1) ||| Side.left.bit
      ∧ (((⟨0, ⟨[⟨.ready .right 1 1, 0, 0, none⟩, ⟨.ready .left 0 0, 0, 64, none⟩]⟩⟩ :
            SizeClass).acquire 32).map fun r => r.2)
        = some ⟨0, 32, (0 <<< 1) ||| Side.right.bit⟩ := by
  decide

/-- C5: the claim says that whenever the linear allocator needs a fresh
chunk and `allocations_remains` is zero, `alloc` returns
`TooManyObjects` without calling `device.allocate_memory`, on both
streams. On the unmapped stream (non-host-visible memory, no ready
chunk, quota 0) the source reaches `device.allocate_memory` with no
quota check (linear.rs lines 247-254), while the mapped stream under
the same conditions returns `TooManyObjects` (lines 155-157). -/
theorem c5_unmapped_quota_eval :
    linearAllocRoute false false 4096 0 none none 64 0 0 = .freshUnmapped
      ∧ linearAllocRoute true false 4096 0 none none 64 0 0 = .tooManyObjects
      ∧ LinearAllocStep.freshUnmapped ≠ LinearAllocStep.tooManyObjects := by
  decide

/-- C6: the claim says the fits test on a ready chunk succeeds iff
`align_up(cursor, mask) + size <= chunk_size`, accepting an aligned end
equal to `chunk_size`. The source test (linear.rs lines 390-394, called
with `ready.allocated`) uses the live-allocation count and strict `<`:
a ready chunk of size 128 with cursor 100 and live count 0 accepts a
30-byte request that the claimed test rejects, and `alloc_from_chunk`
then emits a block ending at 130 > 128, past the chunk; conversely a
request whose aligned end equals `chunk_size` exactly is rejected. -/
theorem c6_fits_cursor_and_bound_eval :
    readyChunkFits 128 ⟨0, 100, 0, none⟩ 30 0 = true
      ∧ specFits 128 100 30 0 = false
      ∧ ((allocFromChunk ⟨0, 100, 0, none⟩ 0 0 30 0).map fun r => r.2.offset + r.2.size)
          = some 130
      ∧ ¬ (130 : Nat) ≤ 128
      ∧ readyChunkFits 128 ⟨0, 0, 0, none⟩ 128 0 = false
      ∧ specFits 128 0 128 0 = true := by
  decide

/-- C7: on a block whose memory type is not host-coherent,
`write_bytes` (resp. `read_bytes`) passes exactly one flush (resp.
invalidate) range with `offset = align_down(offset, map_mask)` and
`size = align_up(data.len(), map_mask)`, and on host-coherent memory no
flush or invalidate call is made (block.rs lines 141-152 and 185-196). -/
theorem c7_flush_invalidate_rounding (props mapMask offset dataLen : Nat)
    (hfit : dataLen + mapMask < u64Limit) :
    (coherent props = false →
        writeBytesFlushRanges props mapMask offset dataLen
            = some [⟨alignDown offset mapMask, alignUpVal dataLen mapMask⟩]
          ∧ readBytesInvalidateRanges props mapMask offset dataLen
            = some [⟨alignDown offset mapMask, alignUpVal dataLen mapMask⟩])
      ∧ (coherent props = true →
          writeBytesFlushRanges props mapMask offset dataLen = some []
            ∧ readBytesInvalidateRanges props mapMask offset dataLen = some []) := by
  constructor <;> intro h <;>
    simp [writeBytesFlushRanges, readBytesInvalidateRanges, alignUp, h, hfit]

/-- Witness for C7 at the spec's example: host-visible non-coherent
props (bit 2 only), atom mask 63, `write_bytes(offset=10, len=40)`
rounds to the single range `offset=0, size=64`. -/
theorem c7_flush_invalidate_rounding_witness :
    ((coherent 2 = false →
        writeBytesFlushRanges 2 63 10 40 = some [⟨alignDown 10 63, alignUpVal 40 63⟩]
          ∧ readBytesInvalidateRanges 2 63 10 40
            = some [⟨alignDown 10 63, alignUpVal 40 63⟩])
      ∧ (coherent 2 = true →
          writeBytesFlushRanges 2 63 10 40 = some []
            ∧ readBytesInvalidateRanges 2 63 10 40 = some []))
      ∧ alignDown 10 63 = 0 ∧ alignUpVal 40 63 = 64 :=
  ⟨c7_flush_invalidate_rounding 2 63 10 40 (by decide), by decide, by decide⟩

/-- C8 counterexample: the claim says every request with
`memory_types = 0` yields `NoCompatibleMemoryTypes` regardless of the
other request fields, but the size check at allocator.rs line 199
precedes the compatibility check: a request of size 2048 against
`max_memory_allocation_size = 1024` with `memory_types = 0` is rejected
with `OutOfDeviceMemory` instead, even though the compatibility mask
intersection is zero. -/
theorem c8_size_check_precedes_counterexample :
    allocPrechecks false 1024 [] 2048 0 0 = .rejected .outOfDeviceMemory
      ∧ memoryForUsageMask [] (withImplicitUsageFlags 0) &&& 0 = 0
      ∧ PrecheckResult.rejected .outOfDeviceMemory
          ≠ PrecheckResult.rejected .noCompatibleMemoryTypes := by
  decide

/-- C8 (amended): for every request whose `memory_types` bitset
intersected with the usage-compatible mask (after implicit usage flags)
is zero, `alloc` returns `NoCompatibleMemoryTypes` from the prechecks —
before the memory-type loop, hence with no device call and no state
change — provided `request.size <= max_memory_allocation_size` and
`DEVICE_ADDRESS` usage is only present when the device supports it. -/
theorem c8_no_compatible_memory_types (bufferDeviceAddress : Bool)
    (maxMemoryAllocationSize : Nat) (memoryTypes : List MemoryType)
    (reqSize usage memoryTypesMask : Nat)
    (hmask : memoryForUsageMask memoryTypes (withImplicitUsageFlags usage) &&& memoryTypesMask
      = 0)
    (hsize : reqSize ≤ maxMemoryAllocationSize)
    (hda : withImplicitUsageFlags usage &&& DEVICE_ADDRESS ≠ 0 → bufferDeviceAddress = true) :
    allocPrechecks bufferDeviceAddress maxMemoryAllocationSize memoryTypes reqSize usage
        memoryTypesMask = .rejected .noCompatibleMemoryTypes := by
  have h1 : ¬ (withImplicitUsageFlags usage &&& DEVICE_ADDRESS ≠ 0
      ∧ bufferDeviceAddress = false) := by
    rintro ⟨hd, hb⟩
    rw [hda hd] at hb
    exact Bool.noConfusion hb
  unfold allocPrechecks
  rw [if_neg h1, if_neg (Nat.not_lt.mpr hsize), if_pos hmask]

/-- Witness for C8: a request with `memory_types = 0`, size within the
limit and no `DEVICE_ADDRESS` usage is rejected with
`NoCompatibleMemoryTypes`. -/
theorem c8_no_compatible_memory_types_witness :
    allocPrechecks false 1024 [⟨2, 0⟩] 512 0 0 = .rejected .noCompatibleMemoryTypes :=
  c8_no_compatible_memory_types false 1024 [⟨2, 0⟩] 512 0 0 (by decide) (by decide)
    (by decide)

/-- C9: after `GpuAllocator::new` the stored thresholds satisfy
`preferred <= dedicated <= transient`, each is at least
`max_memory_allocation_size`, and none of the state transitions the
allocator performs (dedicated alloc and dealloc bookkeeping, the
sub-allocator rounds that mutate only `allocations_remains` and the
heaps) changes them. -/
theorem c9_tresholds_clamped_and_immutable :
    (∀ (config : Config) (props : DeviceProperties),
        (gpuAllocatorNew config props).preferredDedicatedTreshold
            ≤ (gpuAllocatorNew config props).dedicatedTreshold
          ∧ (gpuAllocatorNew config props).dedicatedTreshold
            ≤ (gpuAllocatorNew config props).transientDedicatedTreshold
          ∧ props.maxMemoryAllocationSize
            ≤ (gpuAllocatorNew config props).preferredDedicatedTreshold
          ∧ props.maxMemoryAllocationSize ≤ (gpuAllocatorNew config props).dedicatedTreshold
          ∧ props.maxMemoryAllocationSize
            ≤ (gpuAllocatorNew config props).transientDedicatedTreshold)
      ∧ (∀ st heapIndex sz,
          tresholdTriple (commitDedicatedAlloc st heapIndex sz) = tresholdTriple st)
      ∧ (∀ st heapIndex sz,
          tresholdTriple (commitDedicatedDealloc st heapIndex sz) = tresholdTriple st)
      ∧ (∀ st remainsAfter heapsAfter,
          tresholdTriple (commitSubAllocatorRound st remainsAfter heapsAfter)
            = tresholdTriple st) := by
  refine ⟨fun config props => ⟨?_, ?_, ?_, ?_, ?_⟩,
    fun _ _ _ => rfl, fun _ _ _ => rfl, fun _ _ _ => rfl⟩
  · exact max_le_max (min_le_right _ _) le_rfl
  · exact max_le_max (le_max_right _ _) le_rfl
  · exact le_max_right _ _
  · exact le_max_right _ _
  · exact le_max_right _ _

/-- C10: whenever rounding the request size up to
`align_mask | atom_mask` overflows `u64`, or the rounded value has no
`u64` next power of two, or the size-class index does not fit the
platform's `usize`, `BuddyAllocator::alloc` returns
`OutOfDeviceMemory` (buddy.rs lines 323-331). -/
theorem c10_buddy_rounding_error_paths
    (minimalSize storedAtomMask usizeMax size alignMask : Nat)
    (h : (alignUp size (alignMask ||| storedAtomMask)).bind checkedNextPow2 = none
      ∨ ∃ sz, (alignUp size (alignMask ||| storedAtomMask)).bind checkedNextPow2 = some sz
          ∧ usizeMax < wrapSub32 (trailingZeros64 sz) (trailingZeros64 minimalSize)) :
    buddyAllocSizing minimalSize storedAtomMask usizeMax size alignMask
      = .err .outOfDeviceMemory := by
  unfold buddyAllocSizing
  rcases h with h | ⟨sz, h1, h2⟩
  · rw [h]
  · rw [h1]
    exact if_neg (by omega)

/-- Witness for C10: size `2 ^ 64 - 1` with align mask 1 makes
`align_up` overflow, and the allocation fails with
`OutOfDeviceMemory`. -/
theorem c10_buddy_rounding_error_paths_witness :
    buddyAllocSizing 1 0 (2 ^ 64 - 1) (2 ^ 64 - 1) 1 = .err .outOfDeviceMemory :=
  c10_buddy_rounding_error_paths 1 0 (2 ^ 64 - 1) (2 ^ 64 - 1) 1 (Or.inl (by decide))

end GpuAlloc
